import Mathlib

/-
Verification development for the veeam-mcp-server authenticated API access
layer (src/server.js): token lifecycle (VeeamClient.ensureToken / login /
refresh), the authenticated GET with one 401 retry (VeeamClient.get), the
pagination aggregator (VeeamClient.getList) and the payload guardrail
(truncatePayload).  The JavaScript is shallowly embedded: network responses
are passed in explicitly as environment values, JavaScript object state
becomes explicit state passing, and every function returns the list of
network calls it performed so that claims about call traces can be stated.
-/

namespace Veeam

/-- JSON values as produced by response.json() and consumed by the client.
Objects keep their fields as an insertion-ordered association list. -/
inductive JVal where
  | null
  | bool (b : Bool)
  | num (n : Int)
  | str (s : String)
  | arr (elems : List JVal)
  | obj (fields : List (String × JVal))
deriving Repr

/-- JavaScript truthiness of a possibly-absent string value: null/undefined
and the empty string are falsy, every other string is truthy. -/
def truthy : Option String → Bool
  | none => false
  | some s => s ≠ ""

/-- The result of applying JavaScript Number(...) to the expires_in field of
a token response: a finite integer, NaN (e.g. Number of a junk string), or
an infinity.  NaN is falsy in JavaScript; every other number except 0 is
truthy. -/
inductive JsNum where
  | int (n : Int)
  | nan
  | inf
deriving DecidableEq, Repr

/-- Mutable token state owned by VeeamClient: accessToken, refreshToken
(null initially, modelled as none) and expiresAt in epoch milliseconds. -/
structure TokenState where
  accessToken : Option String
  refreshToken : Option String
  expiresAt : Int
deriving DecidableEq, Repr

/-- The initial client state set up by the VeeamClient constructor:
accessToken = null, refreshToken = null, expiresAt = 0. -/
def emptyState : TokenState := ⟨none, none, 0⟩

/-- A response from the POST /api/v3/token endpoint, as seen by login() and
refresh(): HTTP status, body text (used in error messages) and the parsed
JSON fields access_token, refresh_token and expires_in. -/
structure TokenResp where
  status : Nat
  text : String
  access_token : Option String
  refresh_token : Option String
  expires_in : Option JsNum
deriving DecidableEq, Repr

/-- Fetch's res.ok: status in the range 200..299. -/
def okStatus (s : Nat) : Bool := 200 ≤ s && s < 300

/-- JavaScript x || y for a possibly-absent string x: keeps y when x is
absent or empty (falsy), as in `data.refresh_token || this.refreshToken`. -/
def jsOrElse (x : Option String) (y : Option String) : Option String :=
  if truthy x then x else y

/-- The token-lifetime computation shared by login() and refresh():
`const expiresIn = Number(data.expires_in || 0)` followed by
`isFinite(expiresIn) && expiresIn > 0 ? expiresIn * 1000 : 10 * 60 * 1000`.
Absent, 0 and NaN are all falsy, so they coerce to 0 and fall back to
600000 ms; an infinity survives the || but fails isFinite. -/
def expiresDelta (e : Option JsNum) : Int :=
  match e with
  | some (.int n) => if 0 < n then n * 1000 else 600000
  | some .inf => 600000
  | some .nan => 600000
  | none => 600000

/-- The state update performed by both login() and refresh() on a successful
token response: accessToken is overwritten by data.access_token, the
refresh token is kept when the response carries no (truthy) one, and
expiresAt becomes now plus the computed lifetime. -/
def applyTokenResp (st : TokenState) (now : Int) (r : TokenResp) : TokenState :=
  { accessToken := r.access_token
    refreshToken := jsOrElse r.refresh_token st.refreshToken
    expiresAt := now + expiresDelta r.expires_in }

/-- VeeamClient.login: POSTs the password grant; on a non-success status it
throws an Error carrying the status and the body text, otherwise it applies
the token response to the state. -/
def login (st : TokenState) (now : Int) (r : TokenResp) :
    Except (Nat × String) TokenState :=
  if okStatus r.status then .ok (applyTokenResp st now r)
  else .error (r.status, r.text)

/-- VeeamClient.refresh: POSTs the refresh_token grant; on a non-success
status it returns false leaving the state untouched, otherwise it applies
the token response and returns true. -/
def refresh (st : TokenState) (now : Int) (r : TokenResp) :
    Bool × TokenState :=
  if okStatus r.status then (true, applyTokenResp st now r)
  else (false, st)

/-- One network call performed by the client.  refreshCall records the
refresh token sent in the grant body (this.refreshToken at call time);
getCall records the bearer token of the Authorization header. -/
inductive Call where
  | loginCall
  | refreshCall (tokenSent : Option String)
  | getCall (bearer : Option String)
deriving DecidableEq, Repr

/-- The environment seen by ensureToken: the current Date.now() and the
token-endpoint responses that a refresh attempt and a login attempt would
receive. -/
structure AuthEnv where
  now : Int
  refreshResp : TokenResp
  loginResp : TokenResp
deriving Repr

/-- VeeamClient.ensureToken: return immediately when a (truthy) access
token is held and now is more than 30 s before expiry; otherwise refresh
when a refresh token is held, falling back to login when the refresh fails
or no refresh token is held.  Returns the outcome together with the list
of network calls performed. -/
def ensureToken (st : TokenState) (env : AuthEnv) :
    Except (Nat × String) TokenState × List Call :=
  if truthy st.accessToken ∧ env.now < st.expiresAt - 30000 then
    (.ok st, [])
  else if truthy st.refreshToken then
    match refresh st env.now env.refreshResp with
    | (true, st1) => (.ok st1, [.refreshCall st.refreshToken])
    | (false, st1) =>
      match login st1 env.now env.loginResp with
      | .ok st2 => (.ok st2, [.refreshCall st.refreshToken, .loginCall])
      | .error e => (.error e, [.refreshCall st.refreshToken, .loginCall])
  else
    match login st env.now env.loginResp with
    | .ok st2 => (.ok st2, [.loginCall])
    | .error e => (.error e, [.loginCall])

/-- A response to a resource GET: HTTP status, body text (for error
messages) and the parsed JSON body (for the success path). -/
structure HttpResp where
  status : Nat
  text : String
  json : JVal
deriving Repr

/-- The environment seen by one call to VeeamClient.get: the auth
environment for the initial ensureToken, the response to the first GET,
the token-endpoint response a 401-triggered refresh would receive, and the
response to the retried GET. -/
structure GetEnv where
  auth : AuthEnv
  resp1 : HttpResp
  refreshResp2 : TokenResp
  resp2 : HttpResp
deriving Repr

/-- VeeamClient.get: ensureToken, then the GET; on a 401 attempt one
refresh (its failure is swallowed by the catch) and, only when a truthy
access token is then held, retry the GET once with the new token; finally,
a non-success status throws an Error carrying the status and body text and
a success yields the parsed JSON body.  Returns the outcome together with
the full list of network calls performed. -/
def get (st : TokenState) (env : GetEnv) :
    Except (Nat × String) (JVal × TokenState) × List Call :=
  match ensureToken st env.auth with
  | (.error e, cs) => (.error e, cs)
  | (.ok st1, cs) =>
    if env.resp1.status = 401 then
      match refresh st1 env.auth.now env.refreshResp2 with
      | (_, st2) =>
        if truthy st2.accessToken then
          let cs2 := cs ++ [.getCall st1.accessToken,
                            .refreshCall st1.refreshToken,
                            .getCall st2.accessToken]
          if okStatus env.resp2.status then (.ok (env.resp2.json, st2), cs2)
          else (.error (env.resp2.status, env.resp2.text), cs2)
        else
          let cs2 := cs ++ [.getCall st1.accessToken,
                            .refreshCall st1.refreshToken]
          if okStatus env.resp1.status then (.ok (env.resp1.json, st2), cs2)
          else (.error (env.resp1.status, env.resp1.text), cs2)
    else
      let cs2 := cs ++ [.getCall st1.accessToken]
      if okStatus env.resp1.status then (.ok (env.resp1.json, st1), cs2)
      else (.error (env.resp1.status, env.resp1.text), cs2)

/-- The query object built by getList: offset, limit and the optional
filter/sort/search strings forwarded to the Executor. -/
structure Query where
  offset : Int
  limit : Int
  filter : Option String
  sort : Option String
  search : Option String
deriving DecidableEq, Repr

/-- Caller-supplied getList parameters before destructuring defaults are
applied; absent fields are none. -/
structure ListParams where
  all : Option Bool
  offset : Option Int
  limit : Option Int
  filter : Option String
  sort : Option String
  search : Option String
deriving Repr

/-- MAX_ITEMS: max top-level items aggregated when paginating. -/
def MAX_ITEMS : Nat := 1000

/-- MAX_BYTES: guardrail ceiling on the stringified payload length. -/
def MAX_BYTES : Nat := 1000000

/-- JavaScript property access page.items / page.data on a JSON object:
the first binding of the key, none when absent. -/
def jsField (fields : List (String × JVal)) (key : String) : Option JVal :=
  List.lookup key fields

/-- The shape detection of the aggregation loop:
Array.isArray(page) ? page : Array.isArray(page.items) ? page.items :
Array.isArray(page.data) ? page.data : null.  A JSON null page makes the
property access page.items throw a TypeError (modelled as the error case);
numbers, booleans and strings give undefined, hence an unrecognized
shape. -/
def classify (page : JVal) : Except Unit (Option (List JVal)) :=
  match page with
  | .arr xs => .ok (some xs)
  | .obj fs =>
    match jsField fs "items" with
    | some (.arr xs) => .ok (some xs)
    | _ =>
      match jsField fs "data" with
      | some (.arr xs) => .ok (some xs)
      | _ => .ok none
  | .null => .error ()
  | _ => .ok none

/-- The query sent for one aggregation page:
spread of qp with offset set to the current offset and limit set to the
normalized page limit. -/
def pageQuery (qp : Query) (pl : Nat) (off : Int) : Query :=
  { qp with offset := off, limit := (pl : Int) }

/-- Outcome of the aggregation loop: a raw page returned verbatim
(unrecognized shape, or the all=false path), a flattened item list, a
thrown TypeError from property access on a null page, or fuel exhaustion
(a model artifact only; proved unreachable with enough fuel). -/
inductive AggOut where
  | page (p : JVal)
  | list (xs : List JVal)
  | tyErr
  | fuelOut
deriving Repr

/-- The for(;;) aggregation loop of getList with all=true, with explicit
fuel: fetch the page at the current offset, classify its shape, append the
recognized items, break when the accumulator reached MAX_ITEMS or the page
was short, otherwise advance the offset by the page limit.  The second
component is the list of page queries issued. -/
def aggLoop (fetch : Query → JVal) (qp : Query) (pl : Nat) :
    Nat → Int → List JVal → AggOut × List Query
  | 0, _, _ => (.fuelOut, [])
  | fuel + 1, off, acc =>
    let q := pageQuery qp pl off
    match classify (fetch q) with
    | .error _ => (.tyErr, [q])
    | .ok none => (.page (fetch q), [q])
    | .ok (some items) =>
      let acc2 := acc ++ items
      if MAX_ITEMS ≤ acc2.length ∨ items.length < pl then
        (.list (acc2.take MAX_ITEMS), [q])
      else
        let r := aggLoop fetch qp pl fuel (off + (pl : Int)) acc2
        (r.1, q :: r.2)

/-- The accumulated item count at entry to each iteration of the
aggregation loop, plus the count right after the final append when the
loop breaks.  Mirrors aggLoop step for step. -/
def aggTrace (fetch : Query → JVal) (qp : Query) (pl : Nat) :
    Nat → Int → List JVal → List Nat
  | 0, _, acc => [acc.length]
  | fuel + 1, off, acc =>
    let q := pageQuery qp pl off
    match classify (fetch q) with
    | .error _ => [acc.length]
    | .ok none => [acc.length]
    | .ok (some items) =>
      let acc2 := acc ++ items
      if MAX_ITEMS ≤ acc2.length ∨ items.length < pl then
        [acc.length, acc2.length]
      else
        acc.length :: aggTrace fetch qp pl fuel (off + (pl : Int)) acc2

/-- The page-size normalization of getList with all=true:
Math.min(Math.max(1, limit || 100), 100) applied to the destructured limit
(default 100); the result is in the range 1..100, so it is kept as a
natural number. -/
def normalizeLimit (l : Option Int) : Nat :=
  (min (max 1 (if l.getD 100 = 0 then 100 else l.getD 100)) 100).toNat

/-- The qp object of getList: the caller's offset (default 0), limit
(default 100), filter, sort and search. -/
def qpOf (p : ListParams) : Query :=
  ⟨p.offset.getD 0, p.limit.getD 100, p.filter, p.sort, p.search⟩

/-- Fuel that is always sufficient for the aggregation loop (page limit is
at least 1, so at most MAX_ITEMS continuing iterations occur). -/
def aggFuel : Nat := MAX_ITEMS + 1

/-- VeeamClient.getList: when all is falsy, one direct Executor call with
the caller's query, returning the raw page; when all is set, the
aggregation loop starting at the caller's offset (|| 0) with the
normalized page limit and an empty accumulator.  The Executor
(VeeamClient.get with a successful response) is abstracted as the fetch
function; the second component lists the page queries issued. -/
def getList (fetch : Query → JVal) (p : ListParams) : AggOut × List Query :=
  let qp := qpOf p
  if p.all.getD false then
    aggLoop fetch qp (normalizeLimit p.limit) aggFuel
      (if p.offset.getD 0 = 0 then 0 else p.offset.getD 0) []
  else
    (.page (fetch qp), [qp])

/-- Length contributed by one character inside a JSON string literal:
quote and backslash escape to two characters, the common control escapes
to two, other control characters to a six-character unicode escape, and
everything else serializes as itself. -/
def escLen (c : Char) : Nat :=
  if c = '"' ∨ c = '\\' then 2
  else if c.toNat < 32 then
    if c = '\n' ∨ c = '\t' ∨ c = '\r' ∨ c = '\x08' ∨ c = '\x0c' then 2
    else 6
  else 1

/-- Length of the JSON serialization of a string, quotes included. -/
def jsonStrLen (s : String) : Nat := 2 + (s.data.map escLen).sum

mutual

/-- Length of JSON.stringify applied to a value, as used by safeStringify
in the guardrail's size check (only the length of the serialized text is
ever consumed): brackets plus comma-separated element lengths for arrays,
braces plus comma-separated quoted-key:value lengths for objects. -/
def jsonLength : JVal → Nat
  | .null => 4
  | .bool true => 4
  | .bool false => 5
  | .num n => (toString n).length
  | .str s => jsonStrLen s
  | .arr xs => 2 + (jsonLengthList xs + (xs.length - 1))
  | .obj fs => 2 + (jsonLengthFields fs + (fs.length - 1))

/-- Sum of the serialized lengths of a list of JSON values. -/
def jsonLengthList : List JVal → Nat
  | [] => 0
  | x :: xs => jsonLength x + jsonLengthList xs

/-- Sum of the serialized lengths of the key-value pairs of a JSON object
(quoted key, colon, value). -/
def jsonLengthFields : List (String × JVal) → Nat
  | [] => 0
  | (k, v) :: fs => (jsonStrLen k + 1 + jsonLength v) + jsonLengthFields fs

end

/-- Math.round(MAX_BYTES / 1024), the approximate kilobyte ceiling named
in the truncation note. -/
def kbApprox : Nat := (2 * MAX_BYTES + 1024) / 2048

/-- The fixed truncation note set once in truncatePayload, independent of
which shrink strategy applies. -/
def noteMsg : String :=
  "Response truncated to guardrail limits (~" ++ toString kbApprox ++ "KB)."

/-- Result of truncatePayload: the (possibly shrunk) payload, the
truncated flag, and the note (null when no truncation happened). -/
structure TruncResult where
  payload : JVal
  truncated : Bool
  note : Option String
deriving Repr

/-- payload.items.slice(0, Math.min(payload.items.length, MAX_ITEMS)). -/
def sliceItems (xs : List JVal) : List JVal :=
  xs.take (min xs.length MAX_ITEMS)

/-- The spread update of an object field as in the shrink of the items or
data field: every binding of the key is replaced by the new value, all
other fields are preserved in order. -/
def replaceField (fs : List (String × JVal)) (key : String) (v : JVal) :
    List (String × JVal) :=
  fs.map (fun kv => if kv.1 = key then (kv.1, v) else kv)

/-- truncatePayload: when the serialized length is within MAX_BYTES,
return the payload untouched with no note; otherwise shrink by shape — a
top-level array is sliced to MAX_ITEMS elements, an object with an items
or data array has only that field sliced, any other object keeps its
first 50 keys, a string is sliced to MAX_BYTES characters, and null,
booleans and numbers pass through unchanged — always with the same fixed
note. -/
def truncatePayload (p : JVal) : TruncResult :=
  if jsonLength p ≤ MAX_BYTES then ⟨p, false, none⟩
  else
    match p with
    | .arr xs => ⟨.arr (sliceItems xs), true, some noteMsg⟩
    | .obj fs =>
      match jsField fs "items" with
      | some (.arr xs) =>
        ⟨.obj (replaceField fs "items" (.arr (sliceItems xs))), true,
          some noteMsg⟩
      | _ =>
        match jsField fs "data" with
        | some (.arr xs) =>
          ⟨.obj (replaceField fs "data" (.arr (sliceItems xs))), true,
            some noteMsg⟩
        | _ => ⟨.obj (fs.take 50), true, some noteMsg⟩
    | .str s => ⟨.str (s.take MAX_BYTES), true, some noteMsg⟩
    | other => ⟨other, true, some noteMsg⟩

/-- The login response of the token-lifetime scenario:
access_token "A", refresh_token "R", expires_in 600, at t = 0. -/
def loginRespA : TokenResp := ⟨200, "", some "A", some "R", some (.int 600)⟩

/-- The state after that login: token "A", refresh token "R",
expiry at 600000 ms. -/
def scenarioState : TokenState := ⟨some "A", some "R", 600000⟩

/-- A token response with a given status carrying nothing, used to
instantiate environments whose token calls are never reached or whose
outcome is irrelevant. -/
def plainTokenResp (s : Nat) : TokenResp := ⟨s, "", none, none, none⟩

/-- C1: with a truthy access token and now more than 30 s before expiry,
ensureToken returns at once with no network call and an unchanged state;
and in the concrete scenario where login returned access "A" / refresh "R"
/ expires_in 600 at t = 0, a call at t = 550 s performs no network call
while a call at t = 575 s attempts a refresh first, whatever the
token-endpoint responses r and l would be. -/
theorem ensureToken_fresh_no_network (st : TokenState) (env : AuthEnv)
    (r l : TokenResp)
    (h1 : truthy st.accessToken = true)
    (h2 : env.now < st.expiresAt - 30000) :
    ensureToken st env = (.ok st, [])
    ∧ login emptyState 0 loginRespA = .ok scenarioState
    ∧ ensureToken scenarioState ⟨550000, r, l⟩ = (.ok scenarioState, [])
    ∧ (ensureToken scenarioState ⟨575000, r, l⟩).2.head?
        = some (.refreshCall (some "R")) := by
  refine ⟨?_, by rfl, by rfl, ?_⟩
  · rw [ensureToken, if_pos ⟨by simp [h1], h2⟩]
  · have hc : ¬ (truthy scenarioState.accessToken
        ∧ (575000 : Int) < scenarioState.expiresAt - 30000) := by decide
    rw [ensureToken, if_neg hc, if_pos (by decide)]
    cases hr : refresh scenarioState 575000 r with
    | mk b st1 =>
      cases b with
      | true => simp [hr, scenarioState]
      | false =>
        cases hl : login st1 575000 l with
        | ok st2 => simp [hr, hl, scenarioState]
        | error e => simp [hr, hl, scenarioState]

/-- Witness for C1 at a concrete fresh state and time. -/
theorem ensureToken_fresh_no_network_witness :
    ensureToken ⟨some "T", none, 100000⟩
      ⟨0, plainTokenResp 500, plainTokenResp 500⟩
      = (.ok ⟨some "T", none, 100000⟩, []) :=
  (ensureToken_fresh_no_network ⟨some "T", none, 100000⟩
    ⟨0, plainTokenResp 500, plainTokenResp 500⟩
    (plainTokenResp 500) (plainTokenResp 500) (by decide) (by decide)).1

/-- C8: on any successful token response, login and refresh both install
applyTokenResp's state, whose expiry is strictly in the future: call time
plus expires_in seconds when that is a finite positive number, call time
plus 600 s when it is absent, zero or non-finite; and the prior refresh
token is preserved when the response omits one. -/
theorem token_success_update (st : TokenState) (now : Int) (r : TokenResp)
    (hok : okStatus r.status = true) :
    login st now r = .ok (applyTokenResp st now r)
    ∧ refresh st now r = (true, applyTokenResp st now r)
    ∧ now < (applyTokenResp st now r).expiresAt
    ∧ (∀ n : Int, r.expires_in = some (.int n) → 0 < n →
        (applyTokenResp st now r).expiresAt = now + n * 1000)
    ∧ ((r.expires_in = none ∨ r.expires_in = some (.int 0)
        ∨ r.expires_in = some .nan ∨ r.expires_in = some .inf) →
        (applyTokenResp st now r).expiresAt = now + 600 * 1000)
    ∧ (r.refresh_token = none →
        (applyTokenResp st now r).refreshToken = st.refreshToken) := by
  refine ⟨by simp [login, hok], by simp [refresh, hok], ?_, ?_, ?_, ?_⟩
  · have hpos : ∀ e, 0 < expiresDelta e := by
      intro e
      rcases e with _ | e
      · simp [expiresDelta]
      · rcases e with n | _ | _
        · simp only [expiresDelta]
          by_cases hn : 0 < n
          · rw [if_pos hn]; positivity
          · rw [if_neg hn]; norm_num
        · simp [expiresDelta]
        · simp [expiresDelta]
    have := hpos r.expires_in
    simp only [applyTokenResp]
    omega
  · intro n hn hp
    simp [applyTokenResp, expiresDelta, hn, hp]
  · intro h
    rcases h with h | h | h | h <;> simp [applyTokenResp, expiresDelta, h]
  · intro h
    simp [applyTokenResp, jsOrElse, truthy, h]

/-- Witness for C8 at a concrete successful response that omits the
refresh token and carries expires_in 600. -/
theorem token_success_update_witness :
    (100 : Int) < (applyTokenResp ⟨some "O", some "RR", 5⟩ 100
        ⟨200, "", some "A", none, some (.int 600)⟩).expiresAt
    ∧ (applyTokenResp ⟨some "O", some "RR", 5⟩ 100
        ⟨200, "", some "A", none, some (.int 600)⟩).expiresAt
        = 100 + 600 * 1000
    ∧ (applyTokenResp ⟨some "O", some "RR", 5⟩ 100
        ⟨200, "", some "A", none, some (.int 600)⟩).refreshToken
        = some "RR" :=
  ⟨(token_success_update ⟨some "O", some "RR", 5⟩ 100
      ⟨200, "", some "A", none, some (.int 600)⟩ (by decide)).2.2.1,
   (token_success_update ⟨some "O", some "RR", 5⟩ 100
      ⟨200, "", some "A", none, some (.int 600)⟩ (by decide)).2.2.2.1 600
      rfl (by norm_num),
   (token_success_update ⟨some "O", some "RR", 5⟩ 100
      ⟨200, "", some "A", none, some (.int 600)⟩ (by decide)).2.2.2.2.2
      rfl⟩

/-- C10: a refresh that receives a non-success HTTP response returns
false without raising and leaves the whole token state unchanged. -/
theorem refresh_failure_state_unchanged (st : TokenState) (now : Int)
    (r : TokenResp) (h : okStatus r.status = false) :
    refresh st now r = (false, st) := by
  simp [refresh, h]

/-- Witness for C10 at a concrete 500 response. -/
theorem refresh_failure_state_unchanged_witness :
    refresh ⟨some "A", some "R", 777⟩ 123 (plainTokenResp 500)
      = (false, ⟨some "A", some "R", 777⟩) :=
  refresh_failure_state_unchanged ⟨some "A", some "R", 777⟩ 123
    (plainTokenResp 500) (by decide)

/-- C3: with all falsy, getList delegates once to the Executor with the
caller's (defaulted) offset/limit/filter/sort/search and returns that
single raw page unmodified. -/
theorem getList_single_page (fetch : Query → JVal) (p : ListParams)
    (h : p.all.getD false = false) :
    getList fetch p = (.page (fetch (qpOf p)), [qpOf p]) := by
  simp [getList, h]

/-- Witness for C3 with all absent at a constant upstream page. -/
theorem getList_single_page_witness :
    getList (fun _ => .num 7)
      ⟨none, some 3, some 10, some "f", none, none⟩
      = (.page (.num 7), [⟨3, 10, some "f", none, none⟩]) :=
  getList_single_page (fun _ => .num 7)
    ⟨none, some 3, some 10, some "f", none, none⟩ rfl

/-- The JSON body of the 401-retry scenario: an object whose items field
is the array 1, 2, 3. -/
def itemsJson : JVal := .obj [("items", .arr [.num 1, .num 2, .num 3])]

/-- Initial state of the 401-retry scenario: fresh token "A", refresh
token "R". -/
def retryState : TokenState := ⟨some "A", some "R", 1000000000⟩

/-- Environment of the 401-retry scenario: the first GET answers 401, the
refresh succeeds with token "B", the retried GET answers 200 with the
items body. -/
def retryEnv : GetEnv :=
  ⟨⟨0, plainTokenResp 500, plainTokenResp 500⟩,
   ⟨401, "unauthorized", .null⟩,
   ⟨200, "", some "B", some "R2", some (.int 600)⟩,
   ⟨200, "", itemsJson⟩⟩

/-- State after the scenario's successful refresh. -/
def retry2State : TokenState := ⟨some "B", some "R2", 600000⟩

/-- C2: starting from a fresh token, when the first GET answers 401 the
client attempts exactly one refresh (a failure is swallowed) and retries
the GET exactly once and only when a truthy access token is then held;
afterwards a non-success status raises an error carrying the status and
body text while a 2xx yields the parsed JSON; and the concrete
401-refresh-200 scenario resolves to the items body with no error. -/
theorem get_401_single_refresh_retry (st : TokenState) (env : GetEnv)
    (b : Bool) (st2 : TokenState)
    (h1 : truthy st.accessToken = true)
    (h2 : env.auth.now < st.expiresAt - 30000)
    (h401 : env.resp1.status = 401)
    (hrs : refresh st env.auth.now env.refreshResp2 = (b, st2)) :
    ((get st env).2
        = [Call.getCall st.accessToken, Call.refreshCall st.refreshToken]
          ++ (if truthy st2.accessToken then [Call.getCall st2.accessToken]
              else []))
    ∧ (truthy st2.accessToken = true →
        (okStatus env.resp2.status = true →
          (get st env).1 = .ok (env.resp2.json, st2))
        ∧ (okStatus env.resp2.status = false →
          (get st env).1 = .error (env.resp2.status, env.resp2.text)))
    ∧ (truthy st2.accessToken = false →
        (get st env).1 = .error (401, env.resp1.text))
    ∧ get retryState retryEnv
        = (.ok (itemsJson, retry2State),
           [.getCall (some "A"), .refreshCall (some "R"),
            .getCall (some "B")]) := by
  have he : ensureToken st env.auth = (.ok st, []) := by
    rw [ensureToken, if_pos ⟨by simp [h1], h2⟩]
  have h401ok : okStatus 401 = false := by decide
  refine ⟨?_, fun ht => ⟨fun hok => ?_, fun hok => ?_⟩, fun ht => ?_, by rfl⟩
  · by_cases ht : truthy st2.accessToken = true
    · simp [get, he, h401, hrs, ht]
      split <;> rfl
    · simp only [Bool.not_eq_true] at ht
      simp [get, he, h401, hrs, ht]
      split <;> rfl
  · simp [get, he, h401, hrs, ht, hok]
  · simp [get, he, h401, hrs, ht, hok]
  · simp [get, he, h401, hrs, ht, h401ok]

/-- Witness for C2 at the scenario state and environment, where the
refresh succeeds with token "B". -/
theorem get_401_single_refresh_retry_witness :
    (get retryState retryEnv).2
        = [Call.getCall (some "A"), Call.refreshCall (some "R")]
          ++ (if truthy retry2State.accessToken
              then [Call.getCall (some "B")] else [])
    ∧ (get retryState retryEnv).1 = .ok (itemsJson, retry2State) :=
  ⟨(get_401_single_refresh_retry retryState retryEnv true retry2State
      (by decide) (by decide) rfl (by rfl)).1,
   ((get_401_single_refresh_retry retryState retryEnv true retry2State
      (by decide) (by decide) rfl (by rfl)).2.1 (by decide)).1 (by decide)⟩

/-- Login response holding no refresh token, used to drive get into its
401 path with refreshToken still null. -/
def noRefreshLogin : TokenResp := ⟨200, "", some "A", none, some (.int 600)⟩

/-- Environment under which a fresh client logs in (receiving no refresh
token), gets a 401, and then calls refresh() with refreshToken null. -/
def c9Env : GetEnv :=
  ⟨⟨0, plainTokenResp 500, noRefreshLogin⟩,
   ⟨401, "", .null⟩,
   plainTokenResp 400,
   ⟨200, "", .null⟩⟩

/-- Counterexample to C9 as stated: starting from the empty state with a
login response that carries no refresh token, the 401 path of get invokes
refresh() while no refresh token is held (the refresh_token sent in the
grant body is null). -/
theorem get_refresh_without_token_counterexample :
    (get emptyState c9Env).2
      = [.loginCall, .getCall (some "A"), .refreshCall none,
         .getCall (some "A")]
    ∧ Call.refreshCall none ∈ (get emptyState c9Env).2 := by
  have h : (get emptyState c9Env).2
      = [.loginCall, .getCall (some "A"), .refreshCall none,
         .getCall (some "A")] := by rfl
  exact ⟨h, by rw [h]; simp⟩

/-- C9 amended: ensureToken only attempts a refresh when a truthy refresh
token is held and sends exactly that token, while the 401 path of get
attempts the refresh unconditionally, sending whatever this.refreshToken
holds (null included). -/
theorem refresh_presence_checked_only_in_ensureToken (st : TokenState)
    (env : AuthEnv) (env2 : GetEnv) (tok : Option String)
    (h1 : truthy st.accessToken = true)
    (h2 : env2.auth.now < st.expiresAt - 30000)
    (h401 : env2.resp1.status = 401) :
    (Call.refreshCall tok ∈ (ensureToken st env).2 →
        truthy st.refreshToken = true ∧ tok = st.refreshToken)
    ∧ Call.refreshCall st.refreshToken ∈ (get st env2).2 := by
  constructor
  · intro hmem
    rw [ensureToken] at hmem
    by_cases hfresh : truthy st.accessToken ∧ env.now < st.expiresAt - 30000
    · rw [if_pos hfresh] at hmem
      simp at hmem
    · rw [if_neg hfresh] at hmem
      by_cases hrt : truthy st.refreshToken = true
      · refine ⟨hrt, ?_⟩
        rw [if_pos (by simp [hrt])] at hmem
        cases hr : refresh st env.now env.refreshResp with
        | mk b st1 =>
          rw [hr] at hmem
          cases b with
          | true => simpa using hmem
          | false =>
            cases hl : login st1 env.now env.loginResp with
            | ok st3 => simpa [hl] using hmem
            | error e => simpa [hl] using hmem
      · simp only [Bool.not_eq_true] at hrt
        rw [if_neg (by simp [hrt])] at hmem
        cases hl : login st env.now env.loginResp with
        | ok st3 => rw [hl] at hmem; simp at hmem
        | error e => rw [hl] at hmem; simp at hmem
  · have he : ensureToken st env2.auth = (.ok st, []) := by
      rw [ensureToken, if_pos ⟨by simp [h1], h2⟩]
    cases hrs : refresh st env2.auth.now env2.refreshResp2 with
    | mk b st2 =>
      by_cases ht : truthy st2.accessToken = true
      · simp [get, he, h401, hrs, ht]
        split <;> simp
      · simp only [Bool.not_eq_true] at ht
        simp [get, he, h401, hrs, ht]
        split <;> simp

/-- Witness for the amended C9 at the scenario state, with a 401 first
response. -/
theorem refresh_presence_checked_only_in_ensureToken_witness :
    (Call.refreshCall (some "X")
        ∈ (ensureToken scenarioState
            ⟨0, plainTokenResp 500, plainTokenResp 500⟩).2 →
      truthy scenarioState.refreshToken = true
      ∧ some "X" = scenarioState.refreshToken)
    ∧ Call.refreshCall scenarioState.refreshToken
        ∈ (get scenarioState retryEnv).2 :=
  refresh_presence_checked_only_in_ensureToken scenarioState
    ⟨0, plainTokenResp 500, plainTokenResp 500⟩ retryEnv (some "X")
    (by decide) (by decide) rfl

/-- The normalized page limit is at least 1. -/
theorem normalizeLimit_pos (l : Option Int) : 1 ≤ normalizeLimit l := by
  unfold normalizeLimit
  by_cases h : l.getD 100 = 0
  · rw [if_pos h]; decide
  · rw [if_neg h]; omega

/-- The aggregation trace always starts with the length of the incoming
accumulator. -/
theorem aggTrace_head (fetch : Query → JVal) (qp : Query) (pl : Nat) :
    ∀ fuel (off : Int) (acc : List JVal),
      (aggTrace fetch qp pl fuel off acc).head? = some acc.length := by
  intro fuel off acc
  cases fuel with
  | zero => rfl
  | succ n =>
    simp only [aggTrace]
    rcases hc : classify (fetch (pageQuery qp pl off)) with e | v
    · simp [hc]
    · rcases v with _ | items
      · simp [hc]
      · simp only [hc]
        split <;> simp

/-- The accumulated item count recorded by the aggregation trace is
monotonically non-decreasing. -/
theorem aggTrace_chain (fetch : Query → JVal) (qp : Query) (pl : Nat) :
    ∀ fuel (off : Int) (acc : List JVal),
      List.Chain' (· ≤ ·) (aggTrace fetch qp pl fuel off acc) := by
  intro fuel
  induction fuel with
  | zero => intro off acc; simp [aggTrace]
  | succ n ih =>
    intro off acc
    simp only [aggTrace]
    rcases hc : classify (fetch (pageQuery qp pl off)) with e | v
    · simp [hc]
    · rcases v with _ | items
      · simp [hc]
      · simp only [hc]
        by_cases hstop : MAX_ITEMS ≤ (acc ++ items).length ∨ items.length < pl
        · rw [if_pos hstop]
          simp [List.chain'_cons, List.length_append]
        · rw [if_neg hstop]
          refine (List.chain'_cons').mpr ⟨?_, ih _ _⟩
          intro y hy
          rw [aggTrace_head] at hy
          simp at hy
          subst hy
          omega

/-- Any list result of the aggregation loop has at most MAX_ITEMS
elements. -/
theorem aggLoop_list_le (fetch : Query → JVal) (qp : Query) (pl : Nat) :
    ∀ fuel (off : Int) (acc xs : List JVal),
      (aggLoop fetch qp pl fuel off acc).1 = .list xs →
      xs.length ≤ MAX_ITEMS := by
  intro fuel
  induction fuel with
  | zero => intro off acc xs h; simp [aggLoop] at h
  | succ n ih =>
    intro off acc xs h
    simp only [aggLoop] at h
    split at h
    · simp at h
    · simp at h
    · rename_i items heq
      by_cases hstop : MAX_ITEMS ≤ (acc ++ items).length ∨ items.length < pl
      · rw [if_pos hstop] at h
        simp at h
        rw [← h]
        simp
      · rw [if_neg hstop] at h
        exact ih _ _ _ h

/-- With a positive page limit, fuel one more than the ceiling of the
remaining item budget divided by the page limit is enough for the
aggregation loop to reach a real outcome. -/
theorem aggLoop_enough_fuel (fetch : Query → JVal) (qp : Query) (pl : Nat)
    (hpl : 1 ≤ pl) :
    ∀ fuel (off : Int) (acc : List JVal),
      (MAX_ITEMS - acc.length + pl - 1) / pl + 1 ≤ fuel →
      (aggLoop fetch qp pl fuel off acc).1 ≠ .fuelOut := by
  intro fuel
  induction fuel with
  | zero => intro off acc h; exact absurd h (Nat.not_succ_le_zero _)
  | succ n ih =>
    intro off acc h
    simp only [aggLoop]
    split
    · simp
    · simp
    · rename_i items heq
      by_cases hstop : MAX_ITEMS ≤ (acc ++ items).length ∨ items.length < pl
      · rw [if_pos hstop]; simp
      · rw [if_neg hstop]
        apply ih
        push_neg at hstop
        obtain ⟨hlt, hge⟩ := hstop
        rw [List.length_append] at hlt
        have h1 : MAX_ITEMS - (acc.length + items.length) + pl - 1
            ≤ MAX_ITEMS - acc.length - 1 := by omega
        have h2 := Nat.div_le_div_right (c := pl) h1
        have h3 : MAX_ITEMS - acc.length + pl - 1
            = (MAX_ITEMS - acc.length - 1) + pl := by omega
        have h4 : (MAX_ITEMS - acc.length + pl - 1) / pl
            = (MAX_ITEMS - acc.length - 1) / pl + 1 := by
          rw [h3, Nat.add_div_right _ (by omega)]
        rw [h4] at h
        have h5 := Nat.le_of_succ_le_succ h
        rw [List.length_append]
        exact le_trans (Nat.add_le_add_right h2 1) h5

/-- C4: during all=true aggregation the accumulated item count is
monotonically non-decreasing across iterations, the loop reaches an
outcome within ceil(1000 / pageSize) + 1 iterations for the normalized
page size (the caller's limit clamped to 1..100, defaulting to 100), and
whenever aggregation completes with an item list that list has at most
1000 elements. -/
theorem getList_all_monotone_bounded (fetch : Query → JVal)
    (p : ListParams) (fuel : Nat) (off : Int) (acc xs : List JVal)
    (cs : List Query) :
    List.Chain' (· ≤ ·)
        (aggTrace fetch (qpOf p) (normalizeLimit p.limit) fuel off acc)
    ∧ (aggLoop fetch (qpOf p) (normalizeLimit p.limit)
        ((MAX_ITEMS + normalizeLimit p.limit - 1) / normalizeLimit p.limit
          + 1) off []).1 ≠ .fuelOut
    ∧ (getList fetch p = (.list xs, cs) → xs.length ≤ MAX_ITEMS) := by
  refine ⟨aggTrace_chain _ _ _ _ _ _, ?_, ?_⟩
  · apply aggLoop_enough_fuel _ _ _ (normalizeLimit_pos _)
    simp
  · intro h
    simp only [getList] at h
    by_cases hall : p.all.getD false = true
    · rw [if_pos hall] at h
      exact aggLoop_list_le _ _ _ _ _ _ xs (congrArg Prod.fst h)
    · simp only [Bool.not_eq_true] at hall
      rw [if_neg (by simp [hall])] at h
      simp at h

/-- Witness for C4 at a constant empty upstream page. -/
theorem getList_all_monotone_bounded_witness :
    List.Chain' (· ≤ ·)
        (aggTrace (fun _ => .arr [])
          (qpOf ⟨some true, none, none, none, none, none⟩)
          (normalizeLimit none) 5 0 [])
    ∧ (aggLoop (fun _ => .arr [])
        (qpOf ⟨some true, none, none, none, none, none⟩)
        (normalizeLimit none)
        ((MAX_ITEMS + normalizeLimit none - 1) / normalizeLimit none + 1)
        0 []).1 ≠ .fuelOut
    ∧ ([] : List JVal).length ≤ MAX_ITEMS :=
  ⟨(getList_all_monotone_bounded (fun _ => .arr [])
      ⟨some true, none, none, none, none, none⟩ 5 0 [] []
      [⟨0, 100, none, none, none⟩]).1,
   (getList_all_monotone_bounded (fun _ => .arr [])
      ⟨some true, none, none, none, none, none⟩ 5 0 [] []
      [⟨0, 100, none, none, none⟩]).2.1,
   (getList_all_monotone_bounded (fun _ => .arr [])
      ⟨some true, none, none, none, none, none⟩ 5 0 [] []
      [⟨0, 100, none, none, none⟩]).2.2 (by rfl)⟩

/-- Upstream items for the three-page scenario: pages of 100, 100 and 40
consecutively numbered items at offsets 0, 100 and 200. -/
def scenarioPage (off : Int) : List JVal :=
  if off = 0 then (List.range 100).map (fun i => .num i)
  else if off = 100 then (List.range 100).map (fun i => .num (100 + (i : Int)))
  else if off = 200 then (List.range 40).map (fun i => .num (200 + (i : Int)))
  else []

/-- The executor of the three-page scenario, keyed on the query offset. -/
def scenarioFetch : Query → JVal := fun q => .arr (scenarioPage q.offset)

/-- The parameters of the three-page scenario: all=true, limit=100. -/
def scenarioParams : ListParams := ⟨some true, none, some 100, none, none, none⟩

/-- All 240 items of the three-page scenario in upstream order. -/
def scenarioItems : List JVal := (List.range 240).map (fun i => .num i)

set_option maxRecDepth 10000 in
/-- C5: getList with all=true and limit=100 over upstream pages of 100,
100 and 40 items makes exactly three upstream page requests and returns
all 240 items in upstream order; and in general one loop iteration stops
(issuing no further request) exactly when the accumulator has reached
MAX_ITEMS items or the just-fetched page is shorter than the page limit,
and otherwise recurses with the offset advanced by the page limit. -/
theorem getList_three_pages (fetch : Query → JVal) (qp : Query)
    (pl fuel : Nat) (off : Int) (acc items : List JVal) :
    getList scenarioFetch scenarioParams
      = (.list scenarioItems,
         [⟨0, 100, none, none, none⟩, ⟨100, 100, none, none, none⟩,
          ⟨200, 100, none, none, none⟩])
    ∧ (classify (fetch (pageQuery qp pl off)) = .ok (some items) →
        ((MAX_ITEMS ≤ (acc ++ items).length ∨ items.length < pl) →
          aggLoop fetch qp pl (fuel + 1) off acc
            = (.list ((acc ++ items).take MAX_ITEMS), [pageQuery qp pl off]))
        ∧ (¬ (MAX_ITEMS ≤ (acc ++ items).length ∨ items.length < pl) →
          aggLoop fetch qp pl (fuel + 1) off acc
            = ((aggLoop fetch qp pl fuel (off + (pl : Int)) (acc ++ items)).1,
               pageQuery qp pl off
                 :: (aggLoop fetch qp pl fuel (off + (pl : Int))
                      (acc ++ items)).2))) := by
  refine ⟨by rfl, fun hc => ⟨fun hs => ?_, fun hs => ?_⟩⟩
  · simp only [aggLoop, hc]
    rw [if_pos hs]
  · simp only [aggLoop, hc]
    rw [if_neg hs]

/-- Witness for C5's stop condition at the scenario's final short page. -/
theorem getList_three_pages_witness :
    ((MAX_ITEMS ≤ (([] : List JVal) ++ scenarioPage 200).length
        ∨ (scenarioPage 200).length < 100)
      → aggLoop scenarioFetch (qpOf scenarioParams) 100 1 200 []
          = (.list ((([] : List JVal) ++ scenarioPage 200).take MAX_ITEMS),
             [pageQuery (qpOf scenarioParams) 100 200]))
    ∧ aggLoop scenarioFetch (qpOf scenarioParams) 100 1 200 []
        = (.list ((([] : List JVal) ++ scenarioPage 200).take MAX_ITEMS),
           [pageQuery (qpOf scenarioParams) 100 200]) := by
  have h := (getList_three_pages scenarioFetch (qpOf scenarioParams) 100 0
      200 [] (scenarioPage 200)).2 (by rfl)
  exact ⟨h.1, h.1 (Or.inr (by decide))⟩

/-- The unrecognized-shape page of the aggregation fallback scenario. -/
def statusOkObj : JVal := .obj [("status", .str "ok")]

/-- Counterexample to C6 as stated: a JSON null page is of unrecognized
shape (neither an array nor an object with an items/data array), yet
all=true aggregation does not return it verbatim — the property access
page.items throws a TypeError instead. -/
theorem getList_null_page_counterexample :
    (getList (fun _ => JVal.null)
        ⟨some true, none, none, none, none, none⟩).1 = .tyErr
    ∧ (getList (fun _ => JVal.null)
        ⟨some true, none, none, none, none, none⟩).1 ≠ .page .null := by
  have h : (getList (fun _ => JVal.null)
      ⟨some true, none, none, none, none, none⟩).1 = .tyErr := by rfl
  refine ⟨h, ?_⟩
  rw [h]
  intro hcontra
  exact AggOut.noConfusion hcontra

/-- C6 amended: during all=true aggregation, any fetched non-null page of
unrecognized shape aborts aggregation immediately — that page is returned
verbatim as the only result of the iteration, whatever was accumulated
(a null page instead raises a TypeError); when the first page is already
unrecognized, e.g. an object with only a status field, it is returned
verbatim after a single upstream call. -/
theorem aggLoop_unrecognized_returns_page (fetch : Query → JVal)
    (qp : Query) (pl fuel : Nat) (off : Int) (acc : List JVal)
    (h : classify (fetch (pageQuery qp pl off)) = .ok none) :
    aggLoop fetch qp pl (fuel + 1) off acc
      = (.page (fetch (pageQuery qp pl off)), [pageQuery qp pl off])
    ∧ getList (fun _ => statusOkObj)
        ⟨some true, none, none, none, none, none⟩
        = (.page statusOkObj, [⟨0, 100, none, none, none⟩]) := by
  exact ⟨by simp only [aggLoop, h], by rfl⟩

/-- Witness for the amended C6 at the status-only page with a non-empty
accumulator. -/
theorem aggLoop_unrecognized_returns_page_witness :
    aggLoop (fun _ => statusOkObj)
      (qpOf ⟨some true, none, none, none, none, none⟩) 100 3 0 [JVal.num 5]
      = (.page statusOkObj,
         [pageQuery (qpOf ⟨some true, none, none, none, none, none⟩)
            100 0]) :=
  (aggLoop_unrecognized_returns_page (fun _ => statusOkObj)
    (qpOf ⟨some true, none, none, none, none, none⟩) 100 2 0 [JVal.num 5]
    (by rfl)).1

/-- Serialized length of a replicated list is the replicated element's
length times the count. -/
theorem jsonLengthList_replicate (n : Nat) (x : JVal) :
    jsonLengthList (List.replicate n x) = n * jsonLength x := by
  induction n with
  | zero => simp [jsonLengthList]
  | succ k ih =>
    rw [List.replicate_succ]
    rw [jsonLengthList, ih]
    ring

/-- A 602-character JSON string literal: 600 letters plus the quotes. -/
def bigStr : JVal := .str (String.mk (List.replicate 600 'a'))

/-- Two thousand copies of the 602-character string. -/
def bigList : List JVal := List.replicate 2000 bigStr

/-- A top-level array of 2000 elements whose serialization exceeds the
guardrail ceiling. -/
def bigArr : JVal := .arr bigList

set_option maxRecDepth 40000 in
/-- The serialized length of the big string. -/
theorem jsonLength_bigStr : jsonLength bigStr = 602 := by
  have ha : escLen 'a' = 1 := by decide
  simp [bigStr, jsonLength, jsonStrLen, List.map_replicate,
    List.sum_replicate, ha]

set_option maxRecDepth 40000 in
/-- The big array serializes past the guardrail ceiling. -/
theorem jsonLength_bigArr : jsonLength bigArr = 1206001 := by
  rw [show bigArr = .arr bigList from rfl, jsonLength, bigList,
    jsonLengthList_replicate, jsonLength_bigStr]
  simp

/-- C7: truncatePayload is pure; a payload whose serialized length is
within MAX_BYTES passes through identically with no note; an
over-the-ceiling top-level array of 2000 elements is cut to exactly its
first 1000 elements with a non-absent note; and the note is the one fixed
message whatever shrink strategy applies. -/
theorem truncatePayload_guardrail (p : JVal) (xs : List JVal) :
    (jsonLength p ≤ MAX_BYTES → truncatePayload p = ⟨p, false, none⟩)
    ∧ (MAX_BYTES < jsonLength (.arr xs) → xs.length = 2000 →
        (truncatePayload (.arr xs)).payload = .arr (xs.take 1000)
        ∧ (truncatePayload (.arr xs)).note ≠ none)
    ∧ (MAX_BYTES < jsonLength p →
        (truncatePayload p).note = some noteMsg) := by
  refine ⟨fun h => ?_, fun h hlen => ?_, fun h => ?_⟩
  · simp [truncatePayload, h]
  · have hn : ¬ jsonLength (.arr xs) ≤ MAX_BYTES := not_le.mpr h
    constructor
    · simp [truncatePayload, hn, sliceItems, hlen, MAX_ITEMS]
    · simp [truncatePayload, hn]
  · have hn : ¬ jsonLength p ≤ MAX_BYTES := not_le.mpr h
    cases p <;> simp [truncatePayload, hn] <;> (try split) <;>
      (try split) <;> rfl

set_option maxRecDepth 40000 in
/-- Witness for C7: the null payload passes through, and the big array is
cut to 1000 elements with the fixed note. -/
theorem truncatePayload_guardrail_witness :
    truncatePayload .null = ⟨.null, false, none⟩
    ∧ (truncatePayload bigArr).payload = .arr (bigList.take 1000)
    ∧ (truncatePayload bigArr).note ≠ none
    ∧ (truncatePayload bigArr).note = some noteMsg := by
  have hgt : MAX_BYTES < jsonLength (.arr bigList) := by
    rw [show JVal.arr bigList = bigArr from rfl, jsonLength_bigArr]
    norm_num [MAX_BYTES]
  have hlen : bigList.length = 2000 := by simp [bigList]
  have h2 := (truncatePayload_guardrail bigArr bigList).2.1 hgt hlen
  exact ⟨(truncatePayload_guardrail JVal.null bigList).1 (by decide),
    h2.1, h2.2,
    (truncatePayload_guardrail bigArr bigList).2.2 hgt⟩

end Veeam
